import Mathlib

/-!
Shallow embedding of the two microservices of the `integration_autoservice`
repository:

* `reference_data_service.py` — CRUD over two tables (`services`, `employees`),
  modelled as explicit state passing over `RefDataState`;
* `repair_order_service.py` — CRUD over `repair_orders` and
  `repair_order_services` (association rows), with cross-service validation of
  referenced ids via HTTP GET lookups against the reference data service,
  modelled by an abstract upstream response function.

Python `int` is modelled as `Int`, Python `float` (only ever stored and
returned, never computed with) as `Rat`, `datetime.now()` as an explicit
`now : Int` parameter, `Optional[T]` as `Option T`, and a handler that can
`raise HTTPException` as a function into `Except HTTPException _`.  Handlers
that write return the store they leave behind alongside their result, so that
"the store is left unchanged" is a plain equality.
-/

/-- `fastapi.HTTPException`: an HTTP status code plus a detail message. -/
structure HTTPException where
  status_code : Int
  detail : String
deriving Repr, DecidableEq

/-! ## Reference Data Service (`reference_data_service.py`) -/

/-- Pydantic schema `ServiceCreate` (name, price, duration_minutes). -/
structure ServiceCreate where
  name : String
  price : Rat
  duration_minutes : Int
deriving Repr, DecidableEq

/-- ORM row `ServiceModel` / outgoing schema `Service`. -/
structure Service where
  id : Int
  name : String
  price : Rat
  duration_minutes : Int
deriving Repr, DecidableEq

/-- Pydantic schema `EmployeeCreate` (full_name, position). -/
structure EmployeeCreate where
  full_name : String
  position : String
deriving Repr, DecidableEq

/-- ORM row `EmployeeModel` / outgoing schema `Employee`. -/
structure Employee where
  id : Int
  full_name : String
  position : String
deriving Repr, DecidableEq

/-- The state of the reference data service's database: the `services` and
`employees` tables, plus the autoincrement counters the database uses to
assign primary keys on insert. -/
structure RefDataState where
  services : List Service
  employees : List Employee
  nextServiceId : Int
  nextEmployeeId : Int
deriving Repr, DecidableEq

/-- `session.get(ServiceModel, service_id)`: primary-key lookup. -/
def findService (st : RefDataState) (sid : Int) : Option Service :=
  st.services.find? (fun s => s.id == sid)

/-- `session.get(EmployeeModel, employee_id)`: primary-key lookup. -/
def findEmployee (st : RefDataState) (eid : Int) : Option Employee :=
  st.employees.find? (fun e => e.id == eid)

/-- `create_service`: insert a row built from the request, commit, refresh
(which populates the generated id), and return the stored entity. -/
def create_service (new_service : ServiceCreate) (st : RefDataState) :
    Service × RefDataState :=
  let service : Service :=
    { id := st.nextServiceId
      name := new_service.name
      price := new_service.price
      duration_minutes := new_service.duration_minutes }
  (service,
   { st with
     services := st.services ++ [service]
     nextServiceId := st.nextServiceId + 1 })

/-- `get_service_by_id`: return the row, or raise 404 "Услуга не найдена". -/
def get_service_by_id (service_id : Int) (st : RefDataState) :
    Except HTTPException Service :=
  match findService st service_id with
  | some service => .ok service
  | none => .error ⟨404, "Услуга не найдена"⟩

/-- `delete_service`: remove the row by primary key and commit, or raise 404;
the state is returned alongside so a failed delete visibly leaves it alone. -/
def delete_service (service_id : Int) (st : RefDataState) :
    Except HTTPException Unit × RefDataState :=
  match findService st service_id with
  | some _ =>
    (.ok (), { st with services := st.services.filter (fun s => !(s.id == service_id)) })
  | none => (.error ⟨404, "Услуга не найдена"⟩, st)

/-- `create_employee`: insert a row built from the request, commit, refresh,
and return the stored entity. -/
def create_employee (new_employee : EmployeeCreate) (st : RefDataState) :
    Employee × RefDataState :=
  let employee : Employee :=
    { id := st.nextEmployeeId
      full_name := new_employee.full_name
      position := new_employee.position }
  (employee,
   { st with
     employees := st.employees ++ [employee]
     nextEmployeeId := st.nextEmployeeId + 1 })

/-- `get_employee_by_id`: return the row, or raise 404 "Сотрудник не найден". -/
def get_employee_by_id (employee_id : Int) (st : RefDataState) :
    Except HTTPException Employee :=
  match findEmployee st employee_id with
  | some employee => .ok employee
  | none => .error ⟨404, "Сотрудник не найден"⟩

/-- `delete_employee`: remove the row by primary key and commit, or raise 404. -/
def delete_employee (employee_id : Int) (st : RefDataState) :
    Except HTTPException Unit × RefDataState :=
  match findEmployee st employee_id with
  | some _ =>
    (.ok (), { st with employees := st.employees.filter (fun e => !(e.id == employee_id)) })
  | none => (.error ⟨404, "Сотрудник не найден"⟩, st)

/-! ## Repair Order Service (`repair_order_service.py`) -/

/-- Outcome of one `requests.get` against the reference data service, as seen
through `response.raise_for_status()`:
* `okResp` — 2xx, `raise_for_status` returns;
* `errorResp status body` — an HTTP error response was received;
  `raise_for_status` raises a `RequestException` with `e.response` set,
  carrying the upstream status code and body text;
* `unreachable msg` — no response at all (connection error etc.);
  the `RequestException` has no usable `e.response`. -/
inductive UpstreamResponse where
  | okResp : UpstreamResponse
  | errorResp (status_code : Int) (body : String) : UpstreamResponse
  | unreachable (message : String) : UpstreamResponse
deriving Repr, DecidableEq

/-- The `try/except requests.exceptions.RequestException` block of
`create_repair_order`, applied to one lookup: an error response is re-raised
as `HTTPException(e.response.status_code, "Ошибка Сервиса Справочников: " +
e.response.text)`; an unreachable upstream as
`HTTPException(500, "Ошибка связи с Сервисом Справочников: " + e)`. -/
def checkResponse (r : UpstreamResponse) : Except HTTPException Unit :=
  match r with
  | .okResp => .ok ()
  | .errorResp status body =>
    .error ⟨status, "Ошибка Сервиса Справочников: " ++ body⟩
  | .unreachable msg =>
    .error ⟨500, "Ошибка связи с Сервисом Справочников: " ++ msg⟩

/-- The `for service_id in repair_order_data.service_ids` loop: one GET
`/services/{service_id}` per id, in list order, stopping at the first
failure. -/
def validateServiceIds (svc : Int → UpstreamResponse) :
    List Int → Except HTTPException Unit
  | [] => .ok ()
  | sid :: rest =>
    match checkResponse (svc sid) with
    | .ok _ => validateServiceIds svc rest
    | .error e => .error e

/-- The whole validation block of `create_repair_order`: all service-id
lookups in order, then the one GET `/employees/{employee_id}`. -/
def validateIds (svc emp : Int → UpstreamResponse)
    (service_ids : List Int) (employee_id : Int) : Except HTTPException Unit :=
  match validateServiceIds svc service_ids with
  | .ok _ => checkResponse (emp employee_id)
  | .error e => .error e

/-- Pydantic schema `RepairOrderCreate` (incoming request body). -/
structure RepairOrderCreate where
  client_name : String
  client_phone : String
  car_make : String
  car_model : String
  car_plate : String
  service_ids : List Int
  employee_id : Int
  description : Option String
deriving Repr, DecidableEq

/-- ORM row `RepairOrderModel` (`repair_orders` table). -/
structure RepairOrderRow where
  id : Int
  client_name : String
  client_phone : String
  car_make : String
  car_model : String
  car_plate : String
  employee_id : Int
  status : String
  created_at : Int
  description : Option String
deriving Repr, DecidableEq

/-- ORM row `RepairOrderServiceModel` (`repair_order_services` table): the
association row linking one order to one service id. -/
structure AssocRow where
  id : Int
  service_id : Int
  repair_order_id : Int
deriving Repr, DecidableEq

/-- The state of the repair order service's database: the two tables plus the
autoincrement counters. -/
structure OrderState where
  orders : List RepairOrderRow
  assocs : List AssocRow
  nextOrderId : Int
  nextAssocId : Int
deriving Repr, DecidableEq

/-- The dynamic value Pydantic hands to the `service_ids` field serializer:
either the eagerly loaded `services` relationship (a Python list of
association rows), or — e.g. through a lazy-load proxy or a data-integrity
problem — some other, non-list value, described only by a string. -/
inductive ServicesRel where
  | list (rows : List AssocRow) : ServicesRel
  | nonList (descr : String) : ServicesRel
deriving Repr, DecidableEq

/-- `RepairOrder.serialize_service_ids`: if the relationship value is a list,
flatten it to the service ids; otherwise return the empty list (the
`isinstance(services_relationship, list)` guard). Totality of this function
is the embedding of "the serializer never raises". -/
def serialize_service_ids : ServicesRel → List Int
  | .list rows => rows.map (fun row => row.service_id)
  | .nonList _ => []

/-- Outgoing Pydantic schema `RepairOrder`: the order's scalar columns plus
the flattened `service_ids` list in place of the association rows. -/
structure RepairOrderOut where
  id : Int
  client_name : String
  client_phone : String
  car_make : String
  car_model : String
  car_plate : String
  employee_id : Int
  status : String
  created_at : Int
  description : Option String
  service_ids : List Int
deriving Repr, DecidableEq

/-- Building the outgoing `RepairOrder` representation from an ORM row and
whatever sits in its `services` relationship attribute. -/
def serializeRepairOrder (o : RepairOrderRow) (rel : ServicesRel) : RepairOrderOut :=
  { id := o.id
    client_name := o.client_name
    client_phone := o.client_phone
    car_make := o.car_make
    car_model := o.car_model
    car_plate := o.car_plate
    employee_id := o.employee_id
    status := o.status
    created_at := o.created_at
    description := o.description
    service_ids := serialize_service_ids rel }

/-- The eagerly loaded `services` relationship of the order with id `oid`:
all association rows whose `repair_order_id` is `oid`. -/
def assocsFor (st : OrderState) (oid : Int) : List AssocRow :=
  st.assocs.filter (fun a => a.repair_order_id == oid)

/-- `session.get(RepairOrderModel, repair_order_id)`: primary-key lookup. -/
def findOrder (st : OrderState) (oid : Int) : Option RepairOrderRow :=
  st.orders.find? (fun o => o.id == oid)

/-- The second `for service_id in repair_order_data.service_ids` loop of
`create_repair_order`: one association row per requested service id, in list
order, pointing at the new order's id, with database-assigned row ids. -/
def mkAssocRows : List Int → Int → Int → List AssocRow
  | [], _, _ => []
  | sid :: rest, oid, aid => ⟨aid, sid, oid⟩ :: mkAssocRows rest oid (aid + 1)

/-- The post-validation body of `create_repair_order` (lines 150-170 of
`repair_order_service.py`): insert the order row with status fixed to
"Новый" and `created_at := now`, commit; then insert one association row per
requested service id pointing at the new order's id, commit; then refresh the
order with its `services` relationship loaded and return its serialized
form together with the resulting store. -/
def insertOrder (repair_order_data : RepairOrderCreate) (now : Int)
    (st : OrderState) : RepairOrderOut × OrderState :=
  let oid := st.nextOrderId
  let row : RepairOrderRow :=
    { id := oid
      client_name := repair_order_data.client_name
      client_phone := repair_order_data.client_phone
      car_make := repair_order_data.car_make
      car_model := repair_order_data.car_model
      car_plate := repair_order_data.car_plate
      employee_id := repair_order_data.employee_id
      status := "Новый"
      created_at := now
      description := repair_order_data.description }
  let newAssocs := mkAssocRows repair_order_data.service_ids oid st.nextAssocId
  let st' : OrderState :=
    { orders := st.orders ++ [row]
      assocs := st.assocs ++ newAssocs
      nextOrderId := oid + 1
      nextAssocId := st.nextAssocId + Int.ofNat repair_order_data.service_ids.length }
  (serializeRepairOrder row (.list (assocsFor st' oid)), st')

/-- `create_repair_order`: validate every requested service id and the
employee id against the reference data service (aborting on the first
failure, before anything is written); only if validation passes run the
insertion body `insertOrder`. -/
def create_repair_order (svc emp : Int → UpstreamResponse)
    (repair_order_data : RepairOrderCreate) (now : Int) (st : OrderState) :
    Except HTTPException RepairOrderOut × OrderState :=
  match validateIds svc emp repair_order_data.service_ids repair_order_data.employee_id with
  | .error e => (.error e, st)
  | .ok _ =>
    (.ok (insertOrder repair_order_data now st).fst,
     (insertOrder repair_order_data now st).snd)

/-- `get_repair_order_by_id`: eager-load the order with its associations and
serialize it, or raise 404 "Заказ-наряд не найден". -/
def get_repair_order_by_id (repair_order_id : Int) (st : OrderState) :
    Except HTTPException RepairOrderOut :=
  match findOrder st repair_order_id with
  | some o => .ok (serializeRepairOrder o (.list (assocsFor st repair_order_id)))
  | none => .error ⟨404, "Заказ-наряд не найден"⟩

/-- Pydantic schema `RepairOrderUpdate`: both fields are
`Optional[str] = None`, so an omitted field and an explicit JSON `null` both
parse to Python `None`, modelled as `none` here. -/
structure RepairOrderUpdate where
  status : Option String
  description : Option String
deriving Repr, DecidableEq

/-- The two guarded assignments of `update_repair_order`: each field of the
update that `is not None` overwrites the stored column; each that is `None`
leaves it alone. -/
def applyUpdate (upd : RepairOrderUpdate) (o : RepairOrderRow) : RepairOrderRow :=
  let o1 :=
    match upd.status with
    | some s => { o with status := s }
    | none => o
  match upd.description with
  | some d => { o1 with description := some d }
  | none => o1

/-- `update_repair_order`: fetch the order (404 if missing), apply the two
guarded assignments, commit, and return the refreshed serialized aggregate. -/
def update_repair_order (repair_order_id : Int) (upd : RepairOrderUpdate)
    (st : OrderState) : Except HTTPException RepairOrderOut × OrderState :=
  match findOrder st repair_order_id with
  | none => (.error ⟨404, "Заказ-наряд не найден"⟩, st)
  | some o =>
    let o' := applyUpdate upd o
    let st' : OrderState :=
      { st with orders := st.orders.map (fun r => if r.id == repair_order_id then o' else r) }
    (.ok (serializeRepairOrder o' (.list (assocsFor st' repair_order_id))), st')

/-- `delete_repair_order`: fetch the order (404 if missing), run a SELECT
over the association rows whose result is discarded, delete the order row
only, and commit. The association rows are not touched. -/
def delete_repair_order (repair_order_id : Int) (st : OrderState) :
    Except HTTPException Unit × OrderState :=
  match findOrder st repair_order_id with
  | none => (.error ⟨404, "Заказ-наряд не найден"⟩, st)
  | some _ =>
    (.ok (), { st with orders := st.orders.filter (fun o => !(o.id == repair_order_id)) })

/-- The sequence of upstream responses `create_repair_order` observes, in
lookup order: one per requested service id, then one for the employee id. -/
def lookupResponses (svc emp : Int → UpstreamResponse)
    (service_ids : List Int) (employee_id : Int) : List UpstreamResponse :=
  service_ids.map svc ++ [emp employee_id]

/-- The first non-ok response in a sequence of upstream responses, if any. -/
def firstFailure : List UpstreamResponse → Option UpstreamResponse
  | [] => none
  | .okResp :: rest => firstFailure rest
  | r :: _ => some r

/-! ## Helper lemmas -/

theorem checkResponse_ok_iff (r : UpstreamResponse) :
    checkResponse r = .ok () ↔ r = .okResp := by
  cases r <;> simp [checkResponse]

theorem validateServiceIds_ok_iff (svc : Int → UpstreamResponse) (ids : List Int) :
    validateServiceIds svc ids = .ok () ↔ ∀ sid ∈ ids, svc sid = .okResp := by
  induction ids with
  | nil => simp [validateServiceIds]
  | cons sid rest ih =>
    simp only [validateServiceIds]
    cases h : svc sid <;> simp [checkResponse, h, ih]

theorem validateIds_ok_iff (svc emp : Int → UpstreamResponse)
    (ids : List Int) (eid : Int) :
    validateIds svc emp ids eid = .ok () ↔
      ((∀ sid ∈ ids, svc sid = .okResp) ∧ emp eid = .okResp) := by
  unfold validateIds
  cases hv : validateServiceIds svc ids with
  | ok u =>
    cases u
    rw [validateServiceIds_ok_iff] at hv
    cases he : emp eid with
    | okResp => simpa [checkResponse, he] using hv
    | errorResp s b => simp [checkResponse, he]
    | unreachable m => simp [checkResponse, he]
  | error e =>
    have hnall : ¬ (∀ sid ∈ ids, svc sid = .okResp) := by
      intro hall
      rw [← validateServiceIds_ok_iff svc ids] at hall
      rw [hv] at hall
      cases hall
    simp [hnall]

theorem firstFailure_append_of_none (l₁ l₂ : List UpstreamResponse)
    (h : firstFailure l₁ = none) :
    firstFailure (l₁ ++ l₂) = firstFailure l₂ := by
  induction l₁ with
  | nil => rfl
  | cons a l ih =>
    cases a with
    | okResp => exact ih h
    | errorResp s b => simp [firstFailure] at h
    | unreachable m => simp [firstFailure] at h

theorem firstFailure_append_of_some (l₁ l₂ : List UpstreamResponse)
    (r : UpstreamResponse) (h : firstFailure l₁ = some r) :
    firstFailure (l₁ ++ l₂) = some r := by
  induction l₁ with
  | nil => simp [firstFailure] at h
  | cons a l ih =>
    cases a with
    | okResp => exact ih h
    | errorResp s b => simpa [firstFailure] using h
    | unreachable m => simpa [firstFailure] using h

theorem validateServiceIds_of_firstFailure_none (svc : Int → UpstreamResponse) :
    ∀ ids : List Int, firstFailure (ids.map svc) = none →
      validateServiceIds svc ids = .ok () := by
  intro ids
  induction ids with
  | nil => intro _; rfl
  | cons sid rest ih =>
    intro h
    cases hs : svc sid with
    | okResp =>
      rw [List.map_cons, hs] at h
      simp only [firstFailure] at h
      simp [validateServiceIds, hs, checkResponse, ih h]
    | errorResp s b => rw [List.map_cons, hs] at h; simp [firstFailure] at h
    | unreachable m => rw [List.map_cons, hs] at h; simp [firstFailure] at h

theorem validateServiceIds_of_firstFailure_some (svc : Int → UpstreamResponse) :
    ∀ (ids : List Int) (r : UpstreamResponse),
      firstFailure (ids.map svc) = some r →
      validateServiceIds svc ids = checkResponse r ∧ r ≠ .okResp := by
  intro ids
  induction ids with
  | nil => intro r h; simp [firstFailure] at h
  | cons sid rest ih =>
    intro r h
    cases hs : svc sid with
    | okResp =>
      rw [List.map_cons, hs] at h
      simp only [firstFailure] at h
      have hr := ih r h
      exact ⟨by simp [validateServiceIds, hs, checkResponse, hr.1], hr.2⟩
    | errorResp s b =>
      rw [List.map_cons, hs] at h
      simp only [firstFailure, Option.some.injEq] at h
      subst h
      exact ⟨by simp [validateServiceIds, hs, checkResponse], by simp⟩
    | unreachable m =>
      rw [List.map_cons, hs] at h
      simp only [firstFailure, Option.some.injEq] at h
      subst h
      exact ⟨by simp [validateServiceIds, hs, checkResponse], by simp⟩

theorem validateIds_of_firstFailure (svc emp : Int → UpstreamResponse)
    (ids : List Int) (eid : Int) (r : UpstreamResponse)
    (h : firstFailure (lookupResponses svc emp ids eid) = some r) :
    validateIds svc emp ids eid = checkResponse r ∧ r ≠ .okResp := by
  unfold lookupResponses at h
  cases hf : firstFailure (ids.map svc) with
  | some r₀ =>
    rw [firstFailure_append_of_some _ _ r₀ hf, Option.some.injEq] at h
    subst h
    obtain ⟨h1, h2⟩ := validateServiceIds_of_firstFailure_some svc ids r₀ hf
    refine ⟨?_, h2⟩
    cases r₀ with
    | okResp => exact absurd rfl h2
    | errorResp s b => simp [validateIds, h1, checkResponse]
    | unreachable m => simp [validateIds, h1, checkResponse]
  | none =>
    rw [firstFailure_append_of_none _ _ hf] at h
    have hok := validateServiceIds_of_firstFailure_none svc ids hf
    cases he : emp eid with
    | okResp => rw [he] at h; simp [firstFailure] at h
    | errorResp s b =>
      rw [he] at h
      simp only [firstFailure, Option.some.injEq] at h
      subst h
      exact ⟨by simp [validateIds, hok, he], by simp⟩
    | unreachable m =>
      rw [he] at h
      simp only [firstFailure, Option.some.injEq] at h
      subst h
      exact ⟨by simp [validateIds, hok, he], by simp⟩

theorem find?_append_of_none {α : Type} (p : α → Bool) (l₁ l₂ : List α)
    (h : l₁.find? p = none) : (l₁ ++ l₂).find? p = l₂.find? p := by
  induction l₁ with
  | nil => rfl
  | cons a l ih =>
    cases ha : p a with
    | true => rw [List.find?_cons_of_pos _ ha] at h; cases h
    | false =>
      rw [List.find?_cons_of_neg _ (by simp [ha])] at h
      rw [List.cons_append, List.find?_cons_of_neg _ (by simp [ha])]
      exact ih h

theorem find?_filter_not (p : α → Bool) (l : List α) :
    (l.filter (fun x => !(p x))).find? p = none := by
  rw [List.find?_eq_none]
  intro x hx
  have hmem := (List.mem_filter.mp hx).2
  simp only [Bool.not_eq_true'] at hmem
  simp [hmem]

theorem find?_map_overwrite (oid : Int) (o' : RepairOrderRow) (ho' : o'.id = oid) :
    ∀ (l : List RepairOrderRow) (o : RepairOrderRow),
      l.find? (fun r => r.id == oid) = some o →
      (l.map (fun r => if r.id == oid then o' else r)).find?
          (fun r => r.id == oid) = some o' := by
  intro l
  induction l with
  | nil => intro o h; cases h
  | cons a l ih =>
    intro o h
    by_cases ha : a.id = oid
    · simp [List.find?_cons, ha, ho']
    · have hb : (a.id == oid) = false := by simp [ha]
      rw [List.find?_cons_of_neg _ (by simp [ha])] at h
      rw [List.map_cons]
      simp only [hb, Bool.false_eq_true, if_false]
      rw [List.find?_cons_of_neg _ (by simp [ha])]
      exact ih o h

theorem mkAssocRows_map_service_id :
    ∀ (ids : List Int) (oid aid : Int),
      (mkAssocRows ids oid aid).map (fun row => row.service_id) = ids := by
  intro ids
  induction ids with
  | nil => intro _ _; rfl
  | cons sid rest ih => intro oid aid; simp [mkAssocRows, ih]

theorem mkAssocRows_filter_self :
    ∀ (ids : List Int) (oid aid : Int),
      (mkAssocRows ids oid aid).filter (fun a => a.repair_order_id == oid) =
        mkAssocRows ids oid aid := by
  intro ids
  induction ids with
  | nil => intro _ _; rfl
  | cons sid rest ih => intro oid aid; simp [mkAssocRows, List.filter_cons, ih]

/-! ## Concrete fixtures for witnesses and counterexamples -/

/-- An upstream that answers every lookup with a 2xx response. -/
def allOkUpstream : Int → UpstreamResponse := fun _ => .okResp

/-- An upstream that answers every lookup with 404 and the body "not found". -/
def notFoundUpstream : Int → UpstreamResponse := fun _ => .errorResp 404 "not found"

/-- An upstream that is never reachable. -/
def downUpstream : Int → UpstreamResponse := fun _ => .unreachable "connection refused"

/-- A sample order-creation request. -/
def sampleOrderReq : RepairOrderCreate :=
  { client_name := "Иван Петров"
    client_phone := "+70000000000"
    car_make := "Lada"
    car_model := "Vesta"
    car_plate := "A001AA"
    service_ids := [1, 2]
    employee_id := 1
    description := none }

/-- The empty repair-order store, with autoincrement counters at 1. -/
def emptyOrderState : OrderState :=
  { orders := [], assocs := [], nextOrderId := 1, nextAssocId := 1 }

/-- The status of a creation/read result, when it succeeded. -/
def statusOf (r : Except HTTPException RepairOrderOut) : Option String :=
  match r with
  | .ok out => some out.status
  | .error _ => none

/-! ## Claim theorems -/

/-- C1: if any validation lookup for a requested service id or for the
employee id is not a success (NotFound or unreachable/error), the whole
creation request fails and the repair-order store is left exactly as it was
(no order row, no association rows); if every lookup succeeds, validation
passes and creation proceeds to a successful result. -/
theorem C1_validation_gates_creation (svc emp : Int → UpstreamResponse)
    (req : RepairOrderCreate) (now : Int) (st : OrderState) :
    (((∃ sid ∈ req.service_ids, svc sid ≠ .okResp) ∨ emp req.employee_id ≠ .okResp) →
      (∃ e, (create_repair_order svc emp req now st).fst = .error e) ∧
      (create_repair_order svc emp req now st).snd = st) ∧
    ((∀ sid ∈ req.service_ids, svc sid = .okResp) → emp req.employee_id = .okResp →
      ∃ out, (create_repair_order svc emp req now st).fst = .ok out) := by
  constructor
  · intro hfail
    have hne : validateIds svc emp req.service_ids req.employee_id ≠ .ok () := by
      intro hok
      rw [validateIds_ok_iff] at hok
      rcases hfail with ⟨sid, hmem, hsid⟩ | hemp
      · exact hsid (hok.1 sid hmem)
      · exact hemp hok.2
    cases hv : validateIds svc emp req.service_ids req.employee_id with
    | ok u => cases u; exact absurd hv hne
    | error e =>
      exact ⟨⟨e, by simp [create_repair_order, hv]⟩, by simp [create_repair_order, hv]⟩
  · intro hs he
    have hok : validateIds svc emp req.service_ids req.employee_id = .ok () :=
      (validateIds_ok_iff svc emp req.service_ids req.employee_id).mpr ⟨hs, he⟩
    exact ⟨(insertOrder req now st).fst, by simp [create_repair_order, hok]⟩

/-- Witness for C1: with an upstream whose employee lookup returns 404,
creating `sampleOrderReq` in the empty store fails and leaves the store
empty; with an all-ok upstream the same request succeeds. -/
theorem C1_witness :
    (((∃ e, (create_repair_order allOkUpstream notFoundUpstream sampleOrderReq 0
          emptyOrderState).fst = .error e) ∧
      (create_repair_order allOkUpstream notFoundUpstream sampleOrderReq 0
          emptyOrderState).snd = emptyOrderState) ∧
     (∃ out, (create_repair_order allOkUpstream allOkUpstream sampleOrderReq 0
          emptyOrderState).fst = .ok out)) :=
  ⟨(C1_validation_gates_creation allOkUpstream notFoundUpstream sampleOrderReq 0
      emptyOrderState).1 (Or.inr (by decide)),
   (C1_validation_gates_creation allOkUpstream allOkUpstream sampleOrderReq 0
      emptyOrderState).2 (by decide) (by decide)⟩

/-- C2 counterexample: with every lookup succeeding, creating
`sampleOrderReq` in the empty store succeeds but the returned status is the
Russian string "Новый", not "New" as the claim states. -/
theorem C2_counterexample :
    statusOf (create_repair_order allOkUpstream allOkUpstream sampleOrderReq 0
        emptyOrderState).fst = some "Новый" ∧ "Новый" ≠ "New" := by
  exact ⟨by decide, by decide⟩

/-- C2 (amended): for every order-creation request whose service_ids all
exist and whose employee_id exists upstream, creation succeeds and the
returned repair order has status equal to the fixed string "Новый" (the
code's Russian word for "New"). -/
theorem C2_created_status (svc emp : Int → UpstreamResponse)
    (req : RepairOrderCreate) (now : Int) (st : OrderState)
    (hs : ∀ sid ∈ req.service_ids, svc sid = .okResp)
    (he : emp req.employee_id = .okResp) :
    ∃ out, (create_repair_order svc emp req now st).fst = .ok out ∧
      out.status = "Новый" := by
  have hok : validateIds svc emp req.service_ids req.employee_id = .ok () :=
    (validateIds_ok_iff svc emp req.service_ids req.employee_id).mpr ⟨hs, he⟩
  refine ⟨(insertOrder req now st).fst, by simp [create_repair_order, hok], ?_⟩
  simp [insertOrder, serializeRepairOrder]

/-- Witness for C2 (amended): the sample request against an all-ok upstream
yields an order whose status is "Новый". -/
theorem C2_witness :
    ∃ out, (create_repair_order allOkUpstream allOkUpstream sampleOrderReq 0
        emptyOrderState).fst = .ok out ∧ out.status = "Новый" :=
  C2_created_status allOkUpstream allOkUpstream sampleOrderReq 0 emptyOrderState
    (by decide) (by decide)

/-- A store's association rows never point at the order id the autoincrement
counter has not yet handed out; true of every store the service itself
builds, and the well-formedness C3 needs. -/
def AssocIdsFresh (st : OrderState) : Prop :=
  ∀ a ∈ st.assocs, a.repair_order_id ≠ st.nextOrderId

theorem insertOrder_service_ids (req : RepairOrderCreate) (now : Int)
    (st : OrderState) (hwf : AssocIdsFresh st) :
    (insertOrder req now st).fst.service_ids = req.service_ids := by
  have h1 : st.assocs.filter (fun a => a.repair_order_id == st.nextOrderId) = [] := by
    rw [List.filter_eq_nil_iff]
    intro a ha
    simp [hwf a ha]
  simp [insertOrder, serializeRepairOrder, serialize_service_ids, assocsFor,
        List.filter_append, h1, mkAssocRows_filter_self, mkAssocRows_map_service_id]

/-- C3: when every referenced id validates, the created order's returned
`service_ids` list is exactly the requested list (hence equal as a set,
element for element), the store gains one association row per requested
service id pointing at the new order's id, and serialization flattens those
rows back to the service ids. -/
theorem C3_service_ids_roundtrip (svc emp : Int → UpstreamResponse)
    (req : RepairOrderCreate) (now : Int) (st : OrderState)
    (hs : ∀ sid ∈ req.service_ids, svc sid = .okResp)
    (he : emp req.employee_id = .okResp)
    (hwf : AssocIdsFresh st) :
    ∃ out, (create_repair_order svc emp req now st).fst = .ok out ∧
      out.service_ids = req.service_ids ∧
      (∀ x, x ∈ out.service_ids ↔ x ∈ req.service_ids) ∧
      (create_repair_order svc emp req now st).snd.assocs =
        st.assocs ++ mkAssocRows req.service_ids st.nextOrderId st.nextAssocId ∧
      (mkAssocRows req.service_ids st.nextOrderId st.nextAssocId).map
          (fun row => row.service_id) = req.service_ids := by
  have hok : validateIds svc emp req.service_ids req.employee_id = .ok () :=
    (validateIds_ok_iff svc emp req.service_ids req.employee_id).mpr ⟨hs, he⟩
  have hids := insertOrder_service_ids req now st hwf
  refine ⟨(insertOrder req now st).fst, by simp [create_repair_order, hok], hids,
    by simp [hids], ?_, mkAssocRows_map_service_id req.service_ids _ _⟩
  simp [create_repair_order, hok, insertOrder]

/-- Witness for C3: the sample request in the empty store returns
`service_ids = [1, 2]`, matching the request. -/
theorem C3_witness :
    ∃ out, (create_repair_order allOkUpstream allOkUpstream sampleOrderReq 0
        emptyOrderState).fst = .ok out ∧
      out.service_ids = sampleOrderReq.service_ids ∧
      (∀ x, x ∈ out.service_ids ↔ x ∈ sampleOrderReq.service_ids) ∧
      (create_repair_order allOkUpstream allOkUpstream sampleOrderReq 0
          emptyOrderState).snd.assocs =
        emptyOrderState.assocs ++ mkAssocRows sampleOrderReq.service_ids
          emptyOrderState.nextOrderId emptyOrderState.nextAssocId ∧
      (mkAssocRows sampleOrderReq.service_ids emptyOrderState.nextOrderId
          emptyOrderState.nextAssocId).map (fun row => row.service_id) =
        sampleOrderReq.service_ids :=
  C3_service_ids_roundtrip allOkUpstream allOkUpstream sampleOrderReq 0
    emptyOrderState (by decide) (by decide) (by intro a ha; cases ha)

/-- C5: for every serialization of a repair order, the outward representation
carries a plain list of service ids in place of the association-row
collection; a proper list is flattened to its rows' service ids, and any
non-list value degrades to the empty list. The serializer is a total
function, so it never raises for any input shape. -/
theorem C5_serializer_total_degrade (o : RepairOrderRow) (rel : ServicesRel) :
    (serializeRepairOrder o rel).service_ids = serialize_service_ids rel ∧
    ((∃ rows, rel = .list rows ∧
        serialize_service_ids rel = rows.map (fun row => row.service_id)) ∨
     ((∀ rows, rel ≠ .list rows) ∧ serialize_service_ids rel = [])) := by
  refine ⟨rfl, ?_⟩
  cases rel with
  | list rows => exact Or.inl ⟨rows, rfl, rfl⟩
  | nonList d => exact Or.inr ⟨(fun rows h => by cases h), rfl⟩

theorem applyUpdate_status (upd : RepairOrderUpdate) (o : RepairOrderRow) :
    (applyUpdate upd o).status =
      (match upd.status with | some s => s | none => o.status) := by
  obtain ⟨us, ud⟩ := upd
  cases us <;> cases ud <;> rfl

theorem applyUpdate_description (upd : RepairOrderUpdate) (o : RepairOrderRow) :
    (applyUpdate upd o).description =
      (match upd.description with | some d => some d | none => o.description) := by
  obtain ⟨us, ud⟩ := upd
  cases us <;> cases ud <;> rfl

theorem applyUpdate_frame (upd : RepairOrderUpdate) (o : RepairOrderRow) :
    (applyUpdate upd o).id = o.id ∧
    (applyUpdate upd o).client_name = o.client_name ∧
    (applyUpdate upd o).client_phone = o.client_phone ∧
    (applyUpdate upd o).car_make = o.car_make ∧
    (applyUpdate upd o).car_model = o.car_model ∧
    (applyUpdate upd o).car_plate = o.car_plate ∧
    (applyUpdate upd o).employee_id = o.employee_id ∧
    (applyUpdate upd o).created_at = o.created_at := by
  obtain ⟨us, ud⟩ := upd
  cases us <;> cases ud <;> exact ⟨rfl, rfl, rfl, rfl, rfl, rfl, rfl, rfl⟩

/-- C4: updating an existing order overwrites exactly the fields present in
the request (status and/or description), leaves each absent field at its
stored value, changes no other column of the order row, leaves the
association table alone, and leaves every other order row in place. -/
theorem C4_update_frame (oid : Int) (upd : RepairOrderUpdate) (st : OrderState)
    (o : RepairOrderRow) (h : findOrder st oid = some o) :
    ∃ o', findOrder (update_repair_order oid upd st).snd oid = some o' ∧
      o'.status = (match upd.status with | some s => s | none => o.status) ∧
      o'.description =
        (match upd.description with | some d => some d | none => o.description) ∧
      o'.id = o.id ∧ o'.client_name = o.client_name ∧
      o'.client_phone = o.client_phone ∧ o'.car_make = o.car_make ∧
      o'.car_model = o.car_model ∧ o'.car_plate = o.car_plate ∧
      o'.employee_id = o.employee_id ∧ o'.created_at = o.created_at ∧
      (update_repair_order oid upd st).snd.assocs = st.assocs ∧
      (∀ r ∈ st.orders, r.id ≠ oid → r ∈ (update_repair_order oid upd st).snd.orders) := by
  have ho : o.id = oid := by
    have hp := List.find?_some h
    simpa using hp
  obtain ⟨hid, hcn, hcp, hma, hmo, hpl, hei, hca⟩ := applyUpdate_frame upd o
  refine ⟨applyUpdate upd o, ?_, applyUpdate_status upd o, applyUpdate_description upd o,
    hid, hcn, hcp, hma, hmo, hpl, hei, hca, ?_, ?_⟩
  · have h' : st.orders.find? (fun r => r.id == oid) = some o := h
    simp only [update_repair_order, findOrder, h']
    exact find?_map_overwrite oid (applyUpdate upd o) (hid.trans ho) st.orders o h'
  · simp [update_repair_order, h]
  · intro r hr hne
    simp only [update_repair_order, h]
    refine List.mem_map.mpr ⟨r, hr, ?_⟩
    simp [hne]

/-- A one-order store used by the concrete witnesses. -/
def sampleOrderRow : RepairOrderRow :=
  { id := 1
    client_name := "Иван Петров"
    client_phone := "+70000000000"
    car_make := "Lada"
    car_model := "Vesta"
    car_plate := "A001AA"
    employee_id := 1
    status := "Новый"
    created_at := 0
    description := some "скрип тормозов" }

/-- A store holding `sampleOrderRow` and its two association rows. -/
def oneOrderState : OrderState :=
  { orders := [sampleOrderRow]
    assocs := [⟨1, 1, 1⟩, ⟨2, 2, 1⟩]
    nextOrderId := 2
    nextAssocId := 3 }

/-- An update request that carries only a new status. -/
def statusOnlyUpdate : RepairOrderUpdate :=
  { status := some "В работе", description := none }

/-- Witness for C4: updating only the status of the sample order changes its
status and nothing else. -/
theorem C4_witness :
    ∃ o', findOrder (update_repair_order 1 statusOnlyUpdate oneOrderState).snd 1 =
        some o' ∧
      o'.status = (match statusOnlyUpdate.status with
        | some s => s
        | none => sampleOrderRow.status) ∧
      o'.description = (match statusOnlyUpdate.description with
        | some d => some d
        | none => sampleOrderRow.description) ∧
      o'.id = sampleOrderRow.id ∧ o'.client_name = sampleOrderRow.client_name ∧
      o'.client_phone = sampleOrderRow.client_phone ∧
      o'.car_make = sampleOrderRow.car_make ∧
      o'.car_model = sampleOrderRow.car_model ∧
      o'.car_plate = sampleOrderRow.car_plate ∧
      o'.employee_id = sampleOrderRow.employee_id ∧
      o'.created_at = sampleOrderRow.created_at ∧
      (update_repair_order 1 statusOnlyUpdate oneOrderState).snd.assocs =
        oneOrderState.assocs ∧
      (∀ r ∈ oneOrderState.orders, r.id ≠ 1 →
        r ∈ (update_repair_order 1 statusOnlyUpdate oneOrderState).snd.orders) :=
  C4_update_frame 1 statusOnlyUpdate oneOrderState sampleOrderRow (by decide)

/-- C10: both update fields are `Optional[str] = None` in Pydantic, so an
explicit JSON `null` and an omitted field parse to the same Python `None`
(modelled as `none`); the handler only assigns when the field `is not None`,
so such a field leaves the stored value untouched, and in particular no
update request can reset a non-null description back to null. -/
theorem C10_null_means_absent (oid : Int) (upd : RepairOrderUpdate)
    (st : OrderState) (o : RepairOrderRow) (h : findOrder st oid = some o) :
    ∃ o', findOrder (update_repair_order oid upd st).snd oid = some o' ∧
      (upd.status = none → o'.status = o.status) ∧
      (upd.description = none → o'.description = o.description) ∧
      (∀ d, o.description = some d → o'.description ≠ none) := by
  have ho : o.id = oid := by
    have hp := List.find?_some h
    simpa using hp
  have hid : (applyUpdate upd o).id = oid := by
    exact (applyUpdate_frame upd o).1.trans ho
  refine ⟨applyUpdate upd o, ?_, ?_, ?_, ?_⟩
  · have h' : st.orders.find? (fun r => r.id == oid) = some o := h
    simp only [update_repair_order, findOrder, h']
    exact find?_map_overwrite oid (applyUpdate upd o) hid st.orders o h'
  · intro hs
    rw [applyUpdate_status, hs]
  · intro hd
    rw [applyUpdate_description, hd]
  · intro d hd
    rw [applyUpdate_description]
    cases hud : upd.description with
    | some d' => simp
    | none => simp [hd]

/-- Witness for C10: an all-`none` update of the sample order leaves both
status and description unchanged, and cannot null out its description. -/
theorem C10_witness :
    ∃ o', findOrder (update_repair_order 1 ⟨none, none⟩ oneOrderState).snd 1 =
        some o' ∧
      ((⟨none, none⟩ : RepairOrderUpdate).status = none →
        o'.status = sampleOrderRow.status) ∧
      ((⟨none, none⟩ : RepairOrderUpdate).description = none →
        o'.description = sampleOrderRow.description) ∧
      (∀ d, sampleOrderRow.description = some d → o'.description ≠ none) :=
  C10_null_means_absent 1 ⟨none, none⟩ oneOrderState sampleOrderRow (by decide)

/-- C6: when a validation lookup fails during order creation, the first
failing lookup determines the error: an upstream error response makes the
creation fail with exactly the upstream's status code and a detail message
carrying the upstream's body after the fixed prefix; an unreachable upstream
makes it fail with HTTP 500 and a connectivity message. -/
theorem C6_upstream_error_propagation (svc emp : Int → UpstreamResponse)
    (req : RepairOrderCreate) (now : Int) (st : OrderState) :
    (∀ s b, firstFailure (lookupResponses svc emp req.service_ids req.employee_id) =
        some (.errorResp s b) →
      (create_repair_order svc emp req now st).fst =
        .error ⟨s, "Ошибка Сервиса Справочников: " ++ b⟩) ∧
    (∀ m, firstFailure (lookupResponses svc emp req.service_ids req.employee_id) =
        some (.unreachable m) →
      (create_repair_order svc emp req now st).fst =
        .error ⟨500, "Ошибка связи с Сервисом Справочников: " ++ m⟩) := by
  constructor
  · intro s b h
    have hv := (validateIds_of_firstFailure svc emp req.service_ids
      req.employee_id _ h).1
    simp only [checkResponse] at hv
    simp [create_repair_order, hv]
  · intro m h
    have hv := (validateIds_of_firstFailure svc emp req.service_ids
      req.employee_id _ h).1
    simp only [checkResponse] at hv
    simp [create_repair_order, hv]

/-- Witness for C6: a 404 upstream body propagates with status 404 and the
body in the message; an unreachable upstream yields 500 with the
connectivity message. -/
theorem C6_witness :
    (create_repair_order notFoundUpstream notFoundUpstream sampleOrderReq 0
        emptyOrderState).fst =
      .error ⟨404, "Ошибка Сервиса Справочников: " ++ "not found"⟩ ∧
    (create_repair_order downUpstream downUpstream sampleOrderReq 0
        emptyOrderState).fst =
      .error ⟨500, "Ошибка связи с Сервисом Справочников: " ++ "connection refused"⟩ :=
  ⟨(C6_upstream_error_propagation notFoundUpstream notFoundUpstream sampleOrderReq 0
      emptyOrderState).1 404 "not found" (by decide),
   (C6_upstream_error_propagation downUpstream downUpstream sampleOrderReq 0
      emptyOrderState).2 "connection refused" (by decide)⟩

/-- C7: for each entity kind (Service, Employee, RepairOrder), when no row
has the requested id, get-by-id and delete both answer HTTP 404 with the
entity's not-found message, and a failed delete leaves the store exactly as
it was. -/
theorem C7_notfound_get_delete (rst : RefDataState) (ost : OrderState)
    (sid eid oid : Int)
    (hs : ∀ s ∈ rst.services, s.id ≠ sid)
    (he : ∀ e ∈ rst.employees, e.id ≠ eid)
    (ho : ∀ o ∈ ost.orders, o.id ≠ oid) :
    get_service_by_id sid rst = .error ⟨404, "Услуга не найдена"⟩ ∧
    delete_service sid rst = (.error ⟨404, "Услуга не найдена"⟩, rst) ∧
    get_employee_by_id eid rst = .error ⟨404, "Сотрудник не найден"⟩ ∧
    delete_employee eid rst = (.error ⟨404, "Сотрудник не найден"⟩, rst) ∧
    get_repair_order_by_id oid ost = .error ⟨404, "Заказ-наряд не найден"⟩ ∧
    delete_repair_order oid ost = (.error ⟨404, "Заказ-наряд не найден"⟩, ost) := by
  have hfs : findService rst sid = none := by
    rw [findService, List.find?_eq_none]
    intro s hsm
    simp [hs s hsm]
  have hfe : findEmployee rst eid = none := by
    rw [findEmployee, List.find?_eq_none]
    intro e hem
    simp [he e hem]
  have hfo : findOrder ost oid = none := by
    rw [findOrder, List.find?_eq_none]
    intro o hom
    simp [ho o hom]
  exact ⟨by simp [get_service_by_id, hfs], by simp [delete_service, hfs],
    by simp [get_employee_by_id, hfe], by simp [delete_employee, hfe],
    by simp [get_repair_order_by_id, hfo], by simp [delete_repair_order, hfo]⟩

/-- The reference store used by the concrete witnesses: one service, one
employee, counters at 2. -/
def sampleRefState : RefDataState :=
  { services := [⟨1, "Замена масла", 2999/100, 20⟩]
    employees := [⟨1, "Джейн Доу", "Механик"⟩]
    nextServiceId := 2
    nextEmployeeId := 2 }

/-- Witness for C7: id 5 is missing from every table of the sample stores, so
each get and delete answers 404 and leaves the store unchanged. -/
theorem C7_witness :
    get_service_by_id 5 sampleRefState = .error ⟨404, "Услуга не найдена"⟩ ∧
    delete_service 5 sampleRefState =
      (.error ⟨404, "Услуга не найдена"⟩, sampleRefState) ∧
    get_employee_by_id 5 sampleRefState = .error ⟨404, "Сотрудник не найден"⟩ ∧
    delete_employee 5 sampleRefState =
      (.error ⟨404, "Сотрудник не найден"⟩, sampleRefState) ∧
    get_repair_order_by_id 5 oneOrderState =
      .error ⟨404, "Заказ-наряд не найден"⟩ ∧
    delete_repair_order 5 oneOrderState =
      (.error ⟨404, "Заказ-наряд не найден"⟩, oneOrderState) :=
  C7_notfound_get_delete sampleRefState oneOrderState 5 5 5
    (by decide) (by decide) (by decide)

/-- A reference store whose existing rows all have ids below the respective
autoincrement counters; true of every store the service itself builds, and
what guarantees a fresh id never collides with an existing row. -/
def RefIdsFresh (st : RefDataState) : Prop :=
  (∀ s ∈ st.services, s.id ≠ st.nextServiceId) ∧
  (∀ e ∈ st.employees, e.id ≠ st.nextEmployeeId)

/-- C8: creating a Service or an Employee and immediately fetching it by the
id creation assigned returns an entity whose field values equal those of the
creation request, together with the newly assigned id. -/
theorem C8_create_then_get (rst : RefDataState)
    (sreq : ServiceCreate) (ereq : EmployeeCreate) (hwf : RefIdsFresh rst) :
    get_service_by_id (create_service sreq rst).fst.id (create_service sreq rst).snd =
      .ok (create_service sreq rst).fst ∧
    (create_service sreq rst).fst.name = sreq.name ∧
    (create_service sreq rst).fst.price = sreq.price ∧
    (create_service sreq rst).fst.duration_minutes = sreq.duration_minutes ∧
    (create_service sreq rst).fst.id = rst.nextServiceId ∧
    get_employee_by_id (create_employee ereq rst).fst.id (create_employee ereq rst).snd =
      .ok (create_employee ereq rst).fst ∧
    (create_employee ereq rst).fst.full_name = ereq.full_name ∧
    (create_employee ereq rst).fst.position = ereq.position ∧
    (create_employee ereq rst).fst.id = rst.nextEmployeeId := by
  obtain ⟨hws, hwe⟩ := hwf
  have hsnone : rst.services.find? (fun s => s.id == rst.nextServiceId) = none := by
    rw [List.find?_eq_none]
    intro s hsm
    simp [hws s hsm]
  have henone : rst.employees.find? (fun e => e.id == rst.nextEmployeeId) = none := by
    rw [List.find?_eq_none]
    intro e hem
    simp [hwe e hem]
  refine ⟨?_, rfl, rfl, rfl, rfl, ?_, rfl, rfl, rfl⟩
  · show get_service_by_id rst.nextServiceId (create_service sreq rst).snd =
      .ok (create_service sreq rst).fst
    have hfind : findService (create_service sreq rst).snd rst.nextServiceId =
        some (create_service sreq rst).fst := by
      show (rst.services ++ [(create_service sreq rst).fst]).find?
        (fun s => s.id == rst.nextServiceId) = some (create_service sreq rst).fst
      rw [find?_append_of_none _ _ _ hsnone]
      simp [create_service]
    simp [get_service_by_id, hfind]
  · show get_employee_by_id rst.nextEmployeeId (create_employee ereq rst).snd =
      .ok (create_employee ereq rst).fst
    have hfind : findEmployee (create_employee ereq rst).snd rst.nextEmployeeId =
        some (create_employee ereq rst).fst := by
      show (rst.employees ++ [(create_employee ereq rst).fst]).find?
        (fun e => e.id == rst.nextEmployeeId) = some (create_employee ereq rst).fst
      rw [find?_append_of_none _ _ _ henone]
      simp [create_employee]
    simp [get_employee_by_id, hfind]

/-- Witness for C8: creating an oil-change service and an employee in the
sample reference store and fetching each by its new id round-trips the
request fields with id 2. -/
theorem C8_witness :
    get_service_by_id
        (create_service ⟨"Диагностика", 1500, 60⟩ sampleRefState).fst.id
        (create_service ⟨"Диагностика", 1500, 60⟩ sampleRefState).snd =
      .ok (create_service ⟨"Диагностика", 1500, 60⟩ sampleRefState).fst ∧
    (create_service ⟨"Диагностика", 1500, 60⟩ sampleRefState).fst.name = "Диагностика" ∧
    (create_service ⟨"Диагностика", 1500, 60⟩ sampleRefState).fst.price = 1500 ∧
    (create_service ⟨"Диагностика", 1500, 60⟩ sampleRefState).fst.duration_minutes = 60 ∧
    (create_service ⟨"Диагностика", 1500, 60⟩ sampleRefState).fst.id =
      sampleRefState.nextServiceId ∧
    get_employee_by_id
        (create_employee ⟨"Иван Иванов", "Маляр"⟩ sampleRefState).fst.id
        (create_employee ⟨"Иван Иванов", "Маляр"⟩ sampleRefState).snd =
      .ok (create_employee ⟨"Иван Иванов", "Маляр"⟩ sampleRefState).fst ∧
    (create_employee ⟨"Иван Иванов", "Маляр"⟩ sampleRefState).fst.full_name =
      "Иван Иванов" ∧
    (create_employee ⟨"Иван Иванов", "Маляр"⟩ sampleRefState).fst.position = "Маляр" ∧
    (create_employee ⟨"Иван Иванов", "Маляр"⟩ sampleRefState).fst.id =
      sampleRefState.nextEmployeeId :=
  C8_create_then_get sampleRefState ⟨"Диагностика", 1500, 60⟩ ⟨"Иван Иванов", "Маляр"⟩
    ⟨by decide, by decide⟩

/-- C9: deleting an existing repair order succeeds, removes the order row,
and does not remove that order's association rows — the association table is
untouched, so every association row pointing at the deleted order's id is
still present afterwards. -/
theorem C9_delete_keeps_assocs (oid : Int) (st : OrderState)
    (o : RepairOrderRow) (h : findOrder st oid = some o) :
    (delete_repair_order oid st).fst = .ok () ∧
    (delete_repair_order oid st).snd.assocs = st.assocs ∧
    (∀ a ∈ st.assocs, a.repair_order_id = oid →
      a ∈ (delete_repair_order oid st).snd.assocs) ∧
    findOrder (delete_repair_order oid st).snd oid = none := by
  refine ⟨by simp [delete_repair_order, h], by simp [delete_repair_order, h], ?_, ?_⟩
  · intro a ha _
    simpa [delete_repair_order, h] using ha
  · have h' : st.orders.find? (fun r => r.id == oid) = some o := h
    simp only [delete_repair_order, findOrder, h']
    exact find?_filter_not (fun r => r.id == oid) st.orders

/-- Witness for C9: deleting order 1 from the one-order store succeeds,
leaves both association rows that point at order 1, and removes the order. -/
theorem C9_witness :
    (delete_repair_order 1 oneOrderState).fst = .ok () ∧
    (delete_repair_order 1 oneOrderState).snd.assocs = oneOrderState.assocs ∧
    (∀ a ∈ oneOrderState.assocs, a.repair_order_id = 1 →
      a ∈ (delete_repair_order 1 oneOrderState).snd.assocs) ∧
    findOrder (delete_repair_order 1 oneOrderState).snd 1 = none :=
  C9_delete_keeps_assocs 1 oneOrderState sampleOrderRow (by decide)
